import Mathlib

set_option linter.unusedVariables false

/-!
Shallow embedding of src/base/platform/platform-fuchsia.cc from the v8
repository.  The Zircon kernel is modelled as an oracle (structure Kernel)
whose fields decide the outcome of each system call; the embedded functions
mirror the control flow of the C++ source and record every issued kernel
request in an event trace.  Machine integers are modelled as Nat, with an
explicit modulus where the C++ code truncates (uintptr subtraction, the
static casts to uint32, the 32-bit complement of ZX_VM_SPECIFIC).
-/

/-- Zircon option bit ZX_VM_PERM_READ, value 1 shl 0. -/
def ZX_VM_PERM_READ : Nat := 1

/-- Zircon option bit ZX_VM_PERM_WRITE, value 1 shl 1. -/
def ZX_VM_PERM_WRITE : Nat := 2

/-- Zircon option bit ZX_VM_PERM_EXECUTE, value 1 shl 2. -/
def ZX_VM_PERM_EXECUTE : Nat := 4

/-- Zircon option bit ZX_VM_SPECIFIC, value 1 shl 4. -/
def ZX_VM_SPECIFIC : Nat := 16

/-- Zircon option bit ZX_VM_CAN_MAP_SPECIFIC, value 1 shl 6. -/
def ZX_VM_CAN_MAP_SPECIFIC : Nat := 64

/-- Zircon option bit ZX_VM_CAN_MAP_READ, value 1 shl 7. -/
def ZX_VM_CAN_MAP_READ : Nat := 128

/-- Zircon option bit ZX_VM_CAN_MAP_WRITE, value 1 shl 8. -/
def ZX_VM_CAN_MAP_WRITE : Nat := 256

/-- Zircon option bit ZX_VM_CAN_MAP_EXECUTE, value 1 shl 9. -/
def ZX_VM_CAN_MAP_EXECUTE : Nat := 512

/-- Zircon shift amount ZX_VM_ALIGN_BASE, value 24. -/
def ZX_VM_ALIGN_BASE : Nat := 24

/-- Value of the C++ expression (uint32_t)(~ZX_VM_SPECIFIC): all 32 bits set
except bit 4, that is 0xFFFFFFEF. -/
def UINT32_NOT_ZX_VM_SPECIFIC : Nat := 4294967279

/-- Subtraction of uintptr values as computed by the C++ code: two of the
complement wrap-around modulo 2 pow 64. -/
def uintptrSub (a b : Nat) : Nat := (a + 2 ^ 64 - b % 2 ^ 64) % 2 ^ 64

/-- OS::MemoryPermission from src/base/platform/platform.h, the six element
access level enumeration. -/
inductive MemoryPermission : Type
  | kNoAccess
  | kNoAccessWillJitLater
  | kRead
  | kReadWrite
  | kReadWriteExecute
  | kReadExecute
  deriving DecidableEq, Repr

/-- PlacementMode from platform-fuchsia.cc. -/
inductive PlacementMode : Type
  | kUseHint
  | kAnywhere
  | kFixed
  deriving DecidableEq, Repr

/-- GetProtectionFromMemoryPermission from platform-fuchsia.cc: translation of
an access level to the native zx_vm_option_t protection bits. -/
def GetProtectionFromMemoryPermission (access : MemoryPermission) : Nat :=
  match access with
  | MemoryPermission.kNoAccess => 0
  | MemoryPermission.kNoAccessWillJitLater => 0
  | MemoryPermission.kRead => ZX_VM_PERM_READ
  | MemoryPermission.kReadWrite => ZX_VM_PERM_READ ||| ZX_VM_PERM_WRITE
  | MemoryPermission.kReadWriteExecute =>
      ZX_VM_PERM_READ ||| ZX_VM_PERM_WRITE ||| ZX_VM_PERM_EXECUTE
  | MemoryPermission.kReadExecute => ZX_VM_PERM_READ ||| ZX_VM_PERM_EXECUTE

/-- The search loop inside GetAlignmentOptionFromAlignment: for shift from the
given start up to 32, return the first shift with alignment = 1 shl shift,
and 0 when none matches.  The fuel argument only makes the recursion
structural; the caller passes fuel 23, exactly the number of loop iterations
for shift running from 10 to 32, so exhausted fuel coincides with the loop
exiting at shift 33 with alignment_log2 still 0. -/
def alignmentShiftSearch (alignment : Nat) : Nat → Nat → Nat
  | 0, _ => 0
  | fuel + 1, shift =>
    if shift ≤ 32 then
      if alignment = 1 <<< shift then shift
      else alignmentShiftSearch alignment fuel (shift + 1)
    else 0

/-- GetAlignmentOptionFromAlignment from platform-fuchsia.cc: the matching
ZX_VM_ALIGN_X constant, that is alignment_log2 shl ZX_VM_ALIGN_BASE, and 0
when the alignment is not a power of two between 1 KiB and 4 GiB. -/
def GetAlignmentOptionFromAlignment (alignment : Nat) : Nat :=
  (alignmentShiftSearch alignment 23 10) <<< ZX_VM_ALIGN_BASE

/-- One kernel request issued by the embedded code, as recorded in traces. -/
inductive Event : Type
  | vmoCreate (size : Nat) (ok : Bool)
  | replaceAsExecutable (ok : Bool)
  | map (options vmarOffset size : Nat) (result : Option Nat)
  | vmarAllocate (options vmarOffset size : Nat) (result : Option Nat)
  deriving DecidableEq, Repr

/-- Result of running a piece of embedded code: either a fatal CHECK failure
(abort) or a returned value, in both cases with the trace of kernel requests
issued up to that point. -/
inductive ExecResult (α : Type) : Type
  | abort (trace : List Event)
  | ret (value : α) (trace : List Event)
  deriving DecidableEq, Repr

/-- The trace component of an ExecResult. -/
def ExecResult.trace {α : Type} : ExecResult α → List Event
  | ExecResult.abort t => t
  | ExecResult.ret _ t => t

/-- Oracle for the Zircon kernel objects used by platform-fuchsia.cc: one
field per system call, deciding its outcome.  mapResult and allocResult take
the options word, the vmar offset and the size, and return the resulting
address on ZX_OK and none on failure. -/
structure Kernel : Type where
  vmoCreateOk : Nat → Bool
  replaceAsExecutableOk : Bool
  mapResult : Nat → Nat → Nat → Option Nat
  allocResult : Nat → Nat → Nat → Option Nat
  protectOk : Nat → Nat → Nat → Bool
  decommitOk : Nat → Nat → Bool
  unmapOk : Nat → Nat → Bool

/-- AllocateInternal from platform-fuchsia.cc.  Mirrors the source line by
line: create the vmo (the set_property call on the name has no observable
effect here), unconditionally call replace_as_executable, translate the
permission, resolve the alignment with a fatal CHECK_NE against 0, compute
the vmar offset and the ZX_VM_SPECIFIC bit for non kAnywhere placement, map,
and on failure under kUseHint retry once with the specific bit masked out and
offset 0.  The DCHECK preconditions of the source are debug-only no-ops. -/
def AllocateInternal (k : Kernel) (vmarBase pageSize address : Nat)
    (placement : PlacementMode) (size alignment : Nat)
    (access : MemoryPermission) : ExecResult (Option Nat) :=
  if k.vmoCreateOk size = false then
    ExecResult.ret none [Event.vmoCreate size false]
  else
  if k.replaceAsExecutableOk = false then
    ExecResult.ret none [Event.vmoCreate size true, Event.replaceAsExecutable false]
  else
  let options0 := GetProtectionFromMemoryPermission access
  let alignmentOption := GetAlignmentOptionFromAlignment alignment
  if alignmentOption = 0 then
    ExecResult.abort [Event.vmoCreate size true, Event.replaceAsExecutable true]
  else
  let options1 := options0 ||| alignmentOption
  let vmarOffset :=
    if placement ≠ PlacementMode.kAnywhere then uintptrSub address vmarBase else 0
  let options2 :=
    if placement ≠ PlacementMode.kAnywhere then options1 ||| ZX_VM_SPECIFIC else options1
  let status1 := k.mapResult options2 vmarOffset size
  let trace1 := [Event.vmoCreate size true, Event.replaceAsExecutable true,
                 Event.map options2 vmarOffset size status1]
  match status1 with
  | some result => ExecResult.ret (some result) trace1
  | none =>
    if placement = PlacementMode.kUseHint then
      let options3 := options2 &&& UINT32_NOT_ZX_VM_SPECIFIC
      let status2 := k.mapResult options3 0 size
      ExecResult.ret status2 (trace1 ++ [Event.map options3 0 size status2])
    else
      ExecResult.ret none trace1

/-- FreeInternal from platform-fuchsia.cc: unmap the range. -/
def FreeInternal (k : Kernel) (pageSize address size : Nat) : Bool :=
  k.unmapOk address size

/-- Protection state of the address space: the protection word currently in
force at each address. -/
abbrev Perms := Nat → Nat

/-- Pointwise update of a protection state on the half-open range from lo to
lo + size, the effect of a successful zx_vmar_protect. -/
def setRange (s : Perms) (prot lo size : Nat) : Perms :=
  fun a => if lo ≤ a ∧ a < lo + size then prot else s a

/-- SetPermissionsInternal from platform-fuchsia.cc: issue zx_vmar_protect
with the translated protection; on success the protection state of the range
changes, on failure it is untouched. -/
def SetPermissionsInternal (k : Kernel) (s : Perms) (pageSize address size : Nat)
    (access : MemoryPermission) : Bool × Perms :=
  let prot := GetProtectionFromMemoryPermission access
  if k.protectOk prot address size then (true, setRange s prot address size)
  else (false, s)

/-- DiscardSystemPagesInternal from platform-fuchsia.cc: issue the
ZX_VMO_OP_DECOMMIT op_range call; it does not change protections. -/
def DiscardSystemPagesInternal (k : Kernel) (s : Perms)
    (pageSize address size : Nat) : Bool × Perms :=
  (k.decommitOk address size, s)

/-- CreateAddressSpaceReservationInternal from platform-fuchsia.cc.  The
options always carry all four CAN_MAP bits; the max_permission argument is
accepted but not consulted (TODO in the source).  Same placement and single
retry protocol as AllocateInternal, through zx_vmar_allocate.  Returns the
child vmar address on ZX_OK. -/
def CreateAddressSpaceReservationInternal (k : Kernel) (vmarBase pageSize address : Nat)
    (placement : PlacementMode) (size alignment : Nat)
    (maxPermission : MemoryPermission) : ExecResult (Option Nat) :=
  let options0 := ZX_VM_CAN_MAP_READ ||| ZX_VM_CAN_MAP_WRITE |||
                  ZX_VM_CAN_MAP_EXECUTE ||| ZX_VM_CAN_MAP_SPECIFIC
  let alignmentOption := GetAlignmentOptionFromAlignment alignment
  if alignmentOption = 0 then
    ExecResult.abort []
  else
  let options1 := options0 ||| alignmentOption
  let vmarOffset :=
    if placement ≠ PlacementMode.kAnywhere then uintptrSub address vmarBase else 0
  let options2 :=
    if placement ≠ PlacementMode.kAnywhere then options1 ||| ZX_VM_SPECIFIC else options1
  let status1 := k.allocResult options2 vmarOffset size
  let trace1 := [Event.vmarAllocate options2 vmarOffset size status1]
  match status1 with
  | some childAddr => ExecResult.ret (some childAddr) trace1
  | none =>
    if placement = PlacementMode.kUseHint then
      let options3 := options2 &&& UINT32_NOT_ZX_VM_SPECIFIC
      let status2 := k.allocResult options3 0 size
      ExecResult.ret status2 (trace1 ++ [Event.vmarAllocate options3 0 size status2])
    else
      ExecResult.ret none trace1

/-- AddressSpaceReservation from platform.h: base and size of the child vmar.
The native vmar handle itself is represented by the Kernel oracle passed to
each operation. -/
structure AddressSpaceReservation : Type where
  base : Nat
  size : Nat
  deriving DecidableEq, Repr

/-- The placement mode computed inline in OS::Allocate: kUseHint for a non
null address, kAnywhere otherwise. -/
def OS.allocatePlacement (address : Nat) : PlacementMode :=
  if address ≠ 0 then PlacementMode.kUseHint else PlacementMode.kAnywhere

/-- OS::Allocate from platform-fuchsia.cc: delegate to AllocateInternal on
the root vmar with the hint derived placement. -/
def OS.Allocate (k : Kernel) (rootBase allocatePageSize address size alignment : Nat)
    (access : MemoryPermission) : ExecResult (Option Nat) :=
  AllocateInternal k rootBase allocatePageSize address (OS.allocatePlacement address)
    size alignment access

/-- OS::Free from platform-fuchsia.cc. -/
def OS.Free (k : Kernel) (allocatePageSize address size : Nat) : Bool :=
  FreeInternal k allocatePageSize address size

/-- OS::Release from platform-fuchsia.cc, a synonym of OS::Free. -/
def OS.Release (k : Kernel) (allocatePageSize address size : Nat) : Bool :=
  OS.Free k allocatePageSize address size

/-- OS::SetPermissions from platform-fuchsia.cc. -/
def OS.SetPermissions (k : Kernel) (s : Perms) (commitPageSize address size : Nat)
    (access : MemoryPermission) : Bool × Perms :=
  SetPermissionsInternal k s commitPageSize address size access

/-- OS::DiscardSystemPages from platform-fuchsia.cc. -/
def OS.DiscardSystemPages (k : Kernel) (s : Perms)
    (commitPageSize address size : Nat) : Bool × Perms :=
  DiscardSystemPagesInternal k s commitPageSize address size

/-- OS::DecommitPages from platform-fuchsia.cc: SetPermissions to kNoAccess,
then, only if that succeeded (the C++ conjunction is short-circuiting),
DiscardSystemPages. -/
def OS.DecommitPages (k : Kernel) (s : Perms)
    (commitPageSize address size : Nat) : Bool × Perms :=
  let p := OS.SetPermissions k s commitPageSize address size MemoryPermission.kNoAccess
  if p.1 then OS.DiscardSystemPages k p.2 commitPageSize address size
  else (false, p.2)

/-- The placement mode computed inline in OS::CreateAddressSpaceReservation:
kUseHint for a non null hint, kAnywhere otherwise. -/
def OS.reservationHintPlacement (hint : Nat) : PlacementMode :=
  if hint ≠ 0 then PlacementMode.kUseHint else PlacementMode.kAnywhere

/-- OS::CreateAddressSpaceReservation from platform-fuchsia.cc: delegate to
CreateAddressSpaceReservationInternal on the root vmar and wrap a successful
child address into an AddressSpaceReservation of the requested size. -/
def OS.CreateAddressSpaceReservation (k : Kernel)
    (rootBase allocatePageSize hint size alignment : Nat)
    (maxPermission : MemoryPermission) : ExecResult (Option AddressSpaceReservation) :=
  match CreateAddressSpaceReservationInternal k rootBase allocatePageSize hint
      (OS.reservationHintPlacement hint) size alignment maxPermission with
  | ExecResult.abort t => ExecResult.abort t
  | ExecResult.ret none t => ExecResult.ret none t
  | ExecResult.ret (some childAddr) t =>
      ExecResult.ret (some { base := childAddr, size := size }) t

/-- OS::GetUserTime from platform-fuchsia.cc.  The thread stats query is the
oracle input: none models a failed ZX_INFO_THREAD_STATS get_info, some ns the
total_runtime counter in nanoseconds.  secs and usecs are the values behind
the two out-pointers at entry; the result is the returned int together with
the values behind the two out-pointers at exit.  The casts to uint32 are the
explicit moduli. -/
def OS.GetUserTime (threadStats : Option Nat) (secs usecs : Nat) : Int × Nat × Nat :=
  match threadStats with
  | none => (-1, secs, usecs)
  | some totalRuntime =>
    let kNanosPerMicrosecond := 1000
    let kMicrosPerSecond := 1000000
    let microsSinceThreadStarted :=
      (totalRuntime + kNanosPerMicrosecond - 1) / kNanosPerMicrosecond
    (0, microsSinceThreadStarted / kMicrosPerSecond % 4294967296,
     microsSinceThreadStarted % kMicrosPerSecond % 4294967296)

/-- AddressSpaceReservation::Allocate from platform-fuchsia.cc: delegate to
AllocateInternal with kFixed placement against this reservation, alignment
equal to the allocate page size, and report whether the returned pointer is
non null.  The containment DCHECK and the DCHECK comparing the result with
the requested address are debug-only no-ops. -/
def AddressSpaceReservation.Allocate (k : Kernel) (r : AddressSpaceReservation)
    (allocatePageSize address size : Nat) (access : MemoryPermission) :
    ExecResult Bool :=
  match AllocateInternal k r.base allocatePageSize address PlacementMode.kFixed
      size allocatePageSize access with
  | ExecResult.abort t => ExecResult.abort t
  | ExecResult.ret allocation t => ExecResult.ret allocation.isSome t

/-- AddressSpaceReservation::Free from platform-fuchsia.cc. -/
def AddressSpaceReservation.Free (k : Kernel) (r : AddressSpaceReservation)
    (allocatePageSize address size : Nat) : Bool :=
  FreeInternal k allocatePageSize address size

/-- AddressSpaceReservation::SetPermissions from platform-fuchsia.cc. -/
def AddressSpaceReservation.SetPermissions (k : Kernel) (s : Perms)
    (commitPageSize address size : Nat) (access : MemoryPermission) : Bool × Perms :=
  SetPermissionsInternal k s commitPageSize address size access

/-- AddressSpaceReservation::DiscardSystemPages from platform-fuchsia.cc. -/
def AddressSpaceReservation.DiscardSystemPages (k : Kernel) (s : Perms)
    (commitPageSize address size : Nat) : Bool × Perms :=
  DiscardSystemPagesInternal k s commitPageSize address size

/-- AddressSpaceReservation::DecommitPages from platform-fuchsia.cc: the same
two step composition as OS::DecommitPages, through the methods of the
reservation. -/
def AddressSpaceReservation.DecommitPages (k : Kernel) (s : Perms)
    (commitPageSize address size : Nat) : Bool × Perms :=
  let p := AddressSpaceReservation.SetPermissions k s commitPageSize address size
    MemoryPermission.kNoAccess
  if p.1 then AddressSpaceReservation.DiscardSystemPages k p.2 commitPageSize address size
  else (false, p.2)

/-- Concrete kernel oracle: every specific-offset map fails, every free map
succeeds at address 65536, child allocations all fail, protect succeeds and
decommit fails. -/
def kernelHintFallback : Kernel where
  vmoCreateOk := fun _ => true
  replaceAsExecutableOk := true
  mapResult := fun o _ _ => if o.testBit 4 then none else some 65536
  allocResult := fun _ _ _ => none
  protectOk := fun _ _ _ => true
  decommitOk := fun _ _ => false
  unmapOk := fun _ _ => true

/-- Concrete kernel oracle whose executable upgrade fails while vmo creation
succeeds. -/
def kernelNoVmex : Kernel where
  vmoCreateOk := fun _ => true
  replaceAsExecutableOk := false
  mapResult := fun _ _ _ => some 65536
  allocResult := fun _ _ _ => some 65536
  protectOk := fun _ _ _ => true
  decommitOk := fun _ _ => true
  unmapOk := fun _ _ => true

/-- Concrete kernel oracle where protect succeeds and decommit fails. -/
def kernelDecommitRefused : Kernel where
  vmoCreateOk := fun _ => true
  replaceAsExecutableOk := true
  mapResult := fun _ _ _ => some 65536
  allocResult := fun _ _ _ => some 65536
  protectOk := fun _ _ _ => true
  decommitOk := fun _ _ => false
  unmapOk := fun _ _ => true

/-- Concrete kernel oracle honouring specific-offset requests relative to the
base 4096: every map succeeds exactly at 4096 + offset. -/
def kernelSpecificAt4096 : Kernel where
  vmoCreateOk := fun _ => true
  replaceAsExecutableOk := true
  mapResult := fun _ off _ => some (4096 + off)
  allocResult := fun _ off _ => some (4096 + off)
  protectOk := fun _ _ _ => true
  decommitOk := fun _ _ => true
  unmapOk := fun _ _ => true

/-- Concrete kernel oracle where every child allocation succeeds at 65536. -/
def kernelReserveAt65536 : Kernel where
  vmoCreateOk := fun _ => true
  replaceAsExecutableOk := true
  mapResult := fun _ _ _ => some 65536
  allocResult := fun _ _ _ => some 65536
  protectOk := fun _ _ _ => true
  decommitOk := fun _ _ => true
  unmapOk := fun _ _ => true

/-- Concrete kernel oracle refusing specific-offset child allocations and
granting relocated ones at 65536. -/
def kernelReserveFallback : Kernel where
  vmoCreateOk := fun _ => true
  replaceAsExecutableOk := true
  mapResult := fun o _ _ => if o.testBit 4 then none else some 65536
  allocResult := fun o _ _ => if o.testBit 4 then none else some 65536
  protectOk := fun _ _ _ => true
  decommitOk := fun _ _ => true
  unmapOk := fun _ _ => true

/-- Constant protection state assigning the word 7 everywhere. -/
def permsAllRwx : Perms := fun _ => 7

/-! Helper lemmas about the alignment search loop. -/

theorem alignmentShiftSearch_le (a : Nat) :
    ∀ fuel shift, alignmentShiftSearch a fuel shift ≤ 32 := by
  intro fuel
  induction fuel with
  | zero => intro shift; simp [alignmentShiftSearch]
  | succ n ih =>
    intro shift
    unfold alignmentShiftSearch
    by_cases h32 : shift ≤ 32
    · by_cases heq : a = 1 <<< shift
      · simp [h32, heq]
      · simpa [h32, heq] using ih (shift + 1)
    · simp [h32]

theorem alignmentShiftSearch_pow (k : Nat) :
    ∀ fuel shift, shift ≤ k → k ≤ 32 → k < shift + fuel →
      alignmentShiftSearch (2 ^ k) fuel shift = k := by
  intro fuel
  induction fuel with
  | zero => intro shift h1 h2 h3; omega
  | succ n ih =>
    intro shift h1 h2 h3
    unfold alignmentShiftSearch
    have h32 : shift ≤ 32 := le_trans h1 h2
    by_cases heq : (2 : Nat) ^ k = 1 <<< shift
    · have hks : k = shift :=
        Nat.pow_right_injective (le_refl 2) (heq.trans (Nat.one_shiftLeft shift))
      subst hks
      rw [if_pos h32, if_pos heq]
    · have hne : shift ≠ k := by
        intro hc
        exact heq (by rw [hc, Nat.one_shiftLeft])
      simp only [h32, if_true, heq, if_false]
      exact ih (shift + 1) (by omega) h2 (by omega)

theorem alignmentShiftSearch_notfound (a : Nat) :
    ∀ fuel shift, (∀ j, shift ≤ j → j ≤ 32 → a ≠ 2 ^ j) →
      alignmentShiftSearch a fuel shift = 0 := by
  intro fuel
  induction fuel with
  | zero => intro shift h; simp [alignmentShiftSearch]
  | succ n ih =>
    intro shift h
    unfold alignmentShiftSearch
    by_cases h32 : shift ≤ 32
    · by_cases heq : a = 1 <<< shift
      · rw [Nat.one_shiftLeft] at heq
        exact absurd heq (h shift (le_refl _) h32)
      · simp only [h32, if_true, heq, if_false]
        exact ih (shift + 1) (fun j hj1 hj2 => h j (by omega) hj2)
    · simp [h32]

/-- C6: for every power of two alignment between 1 KiB (2 pow 10) and 4 GiB
(2 pow 32) inclusive, GetAlignmentOptionFromAlignment returns the nonzero
class log2(alignment) shl ZX_VM_ALIGN_BASE, distinct for distinct alignments;
for every other input it returns the zero sentinel. -/
theorem alignment_resolver_spec :
    (∀ shift, 10 ≤ shift → shift ≤ 32 →
      GetAlignmentOptionFromAlignment (2 ^ shift) = shift <<< ZX_VM_ALIGN_BASE ∧
      GetAlignmentOptionFromAlignment (2 ^ shift) ≠ 0) ∧
    (∀ s1 s2, 10 ≤ s1 → s1 ≤ 32 → 10 ≤ s2 → s2 ≤ 32 →
      GetAlignmentOptionFromAlignment (2 ^ s1) = GetAlignmentOptionFromAlignment (2 ^ s2) →
      s1 = s2) ∧
    (∀ a, (∀ shift, shift < 33 → 10 ≤ shift → a ≠ 2 ^ shift) →
      GetAlignmentOptionFromAlignment a = 0) := by
  have key : ∀ shift, 10 ≤ shift → shift ≤ 32 →
      GetAlignmentOptionFromAlignment (2 ^ shift) = shift <<< ZX_VM_ALIGN_BASE := by
    intro shift h1 h2
    unfold GetAlignmentOptionFromAlignment
    rw [alignmentShiftSearch_pow shift 23 10 h1 h2 (by omega)]
  refine ⟨fun shift h1 h2 => ⟨key shift h1 h2, ?_⟩, fun s1 s2 h1 h2 h3 h4 h5 => ?_, fun a h => ?_⟩
  · rw [key shift h1 h2, Nat.shiftLeft_eq]
    have : 0 < (2 : Nat) ^ ZX_VM_ALIGN_BASE := Nat.two_pow_pos _
    positivity
  · rw [key s1 h1 h2, key s2 h3 h4, Nat.shiftLeft_eq, Nat.shiftLeft_eq] at h5
    exact Nat.eq_of_mul_eq_mul_right (Nat.two_pow_pos _) h5
  · unfold GetAlignmentOptionFromAlignment
    rw [alignmentShiftSearch_notfound a 23 10 (fun j hj1 hj2 => h j (by omega) hj1)]
    rfl

/-- Witness for C6 at the concrete alignments 4 KiB and 3000 bytes. -/
theorem alignment_resolver_spec_witness :
    (GetAlignmentOptionFromAlignment (2 ^ 12) = 12 <<< ZX_VM_ALIGN_BASE ∧
     GetAlignmentOptionFromAlignment (2 ^ 12) ≠ 0) ∧
    GetAlignmentOptionFromAlignment 3000 = 0 :=
  ⟨alignment_resolver_spec.1 12 (by decide) (by decide),
   alignment_resolver_spec.2.2 3000 (by decide)⟩

/-- C7: GetProtectionFromMemoryPermission is a pure total function on the six
element access enumeration, and both kNoAccess and kNoAccessWillJitLater map
to the empty bitmask. -/
theorem permission_translator_pure_total :
    (∀ a b : MemoryPermission, a = b →
      GetProtectionFromMemoryPermission a = GetProtectionFromMemoryPermission b) ∧
    GetProtectionFromMemoryPermission MemoryPermission.kNoAccess = 0 ∧
    GetProtectionFromMemoryPermission MemoryPermission.kNoAccessWillJitLater = 0 :=
  ⟨fun a b h => h ▸ rfl, rfl, rfl⟩

/-- Witness for C7 at the concrete access level kRead. -/
theorem permission_translator_pure_total_witness :
    GetProtectionFromMemoryPermission MemoryPermission.kRead =
      GetProtectionFromMemoryPermission MemoryPermission.kRead ∧
    GetProtectionFromMemoryPermission MemoryPermission.kNoAccess = 0 :=
  ⟨permission_translator_pure_total.1 MemoryPermission.kRead MemoryPermission.kRead rfl,
   permission_translator_pure_total.2.1⟩

/-- C8 counterexample: at the in-range counter value 2 pow 32 seconds
(4294967296000000000 nanoseconds) the seconds out-value is 0, while the
quotient of the rounded-up microseconds by 1000000 is 2 pow 32: the cast to
uint32 truncates the seconds output, so the output is not that quotient. -/
theorem userTime_seconds_cast_counterexample :
    OS.GetUserTime (some 4294967296000000000) 3 5 = (0, 0, 0) ∧
    (4294967296000000000 + 999) / 1000 / 1000000 = 4294967296 := by
  constructor
  · rfl
  · norm_num

/-- C8 (amended): on success OS::GetUserTime rounds the nanosecond counter up
to whole microseconds (ceiling division by 1000) and splits by 1000000 into
the seconds output, truncated to 32 bits by the uint32 cast, and the residual
microseconds output; the quotient characterization of the ceiling holds; on
failure it returns -1. -/
theorem userTime_conversion (ns secs usecs : Nat) :
    OS.GetUserTime none secs usecs = (-1, secs, usecs) ∧
    OS.GetUserTime (some ns) secs usecs =
      (0, (ns + 999) / 1000 / 1000000 % 4294967296, (ns + 999) / 1000 % 1000000) ∧
    ns ≤ 1000 * ((ns + 999) / 1000) ∧
    1000 * ((ns + 999) / 1000) < ns + 1000 := by
  refine ⟨rfl, ?_, ?_, ?_⟩
  · show (0, (ns + 1000 - 1) / 1000 / 1000000 % 4294967296,
        (ns + 1000 - 1) / 1000 % 1000000 % 4294967296) = _
    have h1 : ns + 1000 - 1 = ns + 999 := by omega
    have h2 : (ns + 999) / 1000 % 1000000 % 4294967296 = (ns + 999) / 1000 % 1000000 :=
      Nat.mod_eq_of_lt (lt_trans (Nat.mod_lt _ (by omega)) (by omega))
    rw [h1, h2]
  · omega
  · omega

/-- C10: when the thread stats query fails, OS::GetUserTime returns -1 and
both out-values are exactly the values the caller passed in. -/
theorem userTime_failure_frame (secs usecs : Nat) :
    OS.GetUserTime none secs usecs = (-1, secs, usecs) ∧
    (OS.GetUserTime none secs usecs).2.1 = secs ∧
    (OS.GetUserTime none secs usecs).2.2 = usecs :=
  ⟨rfl, rfl, rfl⟩

/-! Helper lemmas about option words. -/

theorem testBit_uint32_mask (i : Nat) :
    (UINT32_NOT_ZX_VM_SPECIFIC).testBit i = (decide (i < 32) && !decide (i = 4)) := by
  have h : UINT32_NOT_ZX_VM_SPECIFIC = (2 ^ 32 - 1) ^^^ 2 ^ 4 := by decide
  rw [h, Nat.testBit_xor, Nat.testBit_two_pow_sub_one, Nat.testBit_two_pow]
  by_cases h4 : i = 4
  · subst h4; decide
  · have h4' : decide (4 = i) = false := decide_eq_false (fun h => h4 h.symm)
    have h4'' : decide (i = 4) = false := decide_eq_false h4
    by_cases h32 : i < 32
    · simp [h4', h4'', h32]
    · simp [h4', h4'', h32]

theorem lor_specific_land_mask (a : Nat) (ha : a < 2 ^ 32) (hb : a.testBit 4 = false) :
    (a ||| ZX_VM_SPECIFIC) &&& UINT32_NOT_ZX_VM_SPECIFIC = a := by
  apply Nat.eq_of_testBit_eq
  intro i
  rw [Nat.testBit_and, Nat.testBit_or, testBit_uint32_mask]
  have h16 : ZX_VM_SPECIFIC = 2 ^ 4 := rfl
  rw [h16, Nat.testBit_two_pow]
  by_cases h4 : i = 4
  · subst h4; simp [hb]
  · have h4' : decide (4 = i) = false := decide_eq_false (fun h => h4 h.symm)
    have h4'' : decide (i = 4) = false := decide_eq_false h4
    by_cases h32 : i < 32
    · simp [h4', h4'', h32]
    · have hf : a.testBit i = false :=
        Nat.testBit_lt_two_pow
          (lt_of_lt_of_le ha (Nat.pow_le_pow_right (by omega) (by omega)))
      simp [h4', h4'', h32, hf]

theorem protection_lt (access : MemoryPermission) :
    GetProtectionFromMemoryPermission access < 16 := by
  cases access <;> decide

theorem protection_testBit_four (access : MemoryPermission) :
    (GetProtectionFromMemoryPermission access).testBit 4 = false := by
  cases access <;> decide

theorem alignOption_lt (alignment : Nat) :
    GetAlignmentOptionFromAlignment alignment < 2 ^ 32 := by
  unfold GetAlignmentOptionFromAlignment
  rw [Nat.shiftLeft_eq]
  have h := alignmentShiftSearch_le alignment 23 10
  calc alignmentShiftSearch alignment 23 10 * 2 ^ ZX_VM_ALIGN_BASE
      ≤ 32 * 2 ^ ZX_VM_ALIGN_BASE := Nat.mul_le_mul_right _ h
    _ < 2 ^ 32 := by norm_num [ZX_VM_ALIGN_BASE]

theorem alignOption_testBit_lt24 (alignment i : Nat) (h : i < 24) :
    (GetAlignmentOptionFromAlignment alignment).testBit i = false := by
  unfold GetAlignmentOptionFromAlignment ZX_VM_ALIGN_BASE
  rw [Nat.testBit_shiftLeft]
  simp [show ¬ (24 ≤ i) from by omega]

theorem protAlign_testBit_four (access : MemoryPermission) (alignment : Nat) :
    (GetProtectionFromMemoryPermission access |||
      GetAlignmentOptionFromAlignment alignment).testBit 4 = false := by
  rw [Nat.testBit_or, protection_testBit_four, alignOption_testBit_lt24 alignment 4 (by omega)]
  rfl

theorem protAlign_lt (access : MemoryPermission) (alignment : Nat) :
    GetProtectionFromMemoryPermission access |||
      GetAlignmentOptionFromAlignment alignment < 2 ^ 32 :=
  Nat.or_lt_two_pow (lt_trans (protection_lt access) (by norm_num)) (alignOption_lt alignment)

theorem canMapAlign_testBit_four (alignment : Nat) :
    ((ZX_VM_CAN_MAP_READ ||| ZX_VM_CAN_MAP_WRITE ||| ZX_VM_CAN_MAP_EXECUTE |||
      ZX_VM_CAN_MAP_SPECIFIC) ||| GetAlignmentOptionFromAlignment alignment).testBit 4 = false := by
  rw [Nat.testBit_or, alignOption_testBit_lt24 alignment 4 (by omega)]
  decide

theorem canMapAlign_lt (alignment : Nat) :
    (ZX_VM_CAN_MAP_READ ||| ZX_VM_CAN_MAP_WRITE ||| ZX_VM_CAN_MAP_EXECUTE |||
      ZX_VM_CAN_MAP_SPECIFIC) ||| GetAlignmentOptionFromAlignment alignment < 2 ^ 32 :=
  Nat.or_lt_two_pow (by decide) (alignOption_lt _)

theorem testBit_or_left_true {a : Nat} {i : Nat} (h : Nat.testBit a i = true) (x : Nat) :
    Nat.testBit (a ||| x) i = true := by
  rw [Nat.testBit_or, h]
  rfl

theorem testBit_and_true {a b : Nat} {i : Nat} (h1 : Nat.testBit a i = true)
    (h2 : Nat.testBit b i = true) : Nat.testBit (a &&& b) i = true := by
  rw [Nat.testBit_and, h1, h2]
  rfl

theorem uintptrSub_eq (a b : Nat) (h1 : b ≤ a) (h2 : a < 2 ^ 64) :
    uintptrSub a b = a - b := by
  unfold uintptrSub
  have hb : b % 2 ^ 64 = b := Nat.mod_eq_of_lt (lt_of_le_of_lt h1 h2)
  rw [hb]
  omega

/-! Evaluation lemmas for AllocateInternal under the three placement modes
when the initial map attempt fails. -/

theorem allocateInternal_useHint_eq (k : Kernel) (base ps addr size alignment : Nat)
    (access : MemoryPermission)
    (hvmo : k.vmoCreateOk size = true)
    (hexec : k.replaceAsExecutableOk = true)
    (halign : GetAlignmentOptionFromAlignment alignment ≠ 0)
    (hfail : k.mapResult
      (GetProtectionFromMemoryPermission access |||
        GetAlignmentOptionFromAlignment alignment ||| ZX_VM_SPECIFIC)
      (uintptrSub addr base) size = none) :
    AllocateInternal k base ps addr PlacementMode.kUseHint size alignment access =
      ExecResult.ret
        (k.mapResult (GetProtectionFromMemoryPermission access |||
          GetAlignmentOptionFromAlignment alignment) 0 size)
        [Event.vmoCreate size true, Event.replaceAsExecutable true,
         Event.map (GetProtectionFromMemoryPermission access |||
           GetAlignmentOptionFromAlignment alignment ||| ZX_VM_SPECIFIC)
           (uintptrSub addr base) size none,
         Event.map (GetProtectionFromMemoryPermission access |||
           GetAlignmentOptionFromAlignment alignment) 0 size
           (k.mapResult (GetProtectionFromMemoryPermission access |||
             GetAlignmentOptionFromAlignment alignment) 0 size)] := by
  have hmask := lor_specific_land_mask _ (protAlign_lt access alignment)
    (protAlign_testBit_four access alignment)
  unfold AllocateInternal
  simp [hvmo, hexec, halign, hfail, hmask]

theorem allocateInternal_fixed_eq (k : Kernel) (base ps addr size alignment : Nat)
    (access : MemoryPermission)
    (hvmo : k.vmoCreateOk size = true)
    (hexec : k.replaceAsExecutableOk = true)
    (halign : GetAlignmentOptionFromAlignment alignment ≠ 0)
    (hfail : k.mapResult
      (GetProtectionFromMemoryPermission access |||
        GetAlignmentOptionFromAlignment alignment ||| ZX_VM_SPECIFIC)
      (uintptrSub addr base) size = none) :
    AllocateInternal k base ps addr PlacementMode.kFixed size alignment access =
      ExecResult.ret none
        [Event.vmoCreate size true, Event.replaceAsExecutable true,
         Event.map (GetProtectionFromMemoryPermission access |||
           GetAlignmentOptionFromAlignment alignment ||| ZX_VM_SPECIFIC)
           (uintptrSub addr base) size none] := by
  unfold AllocateInternal
  simp [hvmo, hexec, halign, hfail]

theorem allocateInternal_anywhere_eq (k : Kernel) (base ps addr size alignment : Nat)
    (access : MemoryPermission)
    (hvmo : k.vmoCreateOk size = true)
    (hexec : k.replaceAsExecutableOk = true)
    (halign : GetAlignmentOptionFromAlignment alignment ≠ 0)
    (hfail0 : k.mapResult
      (GetProtectionFromMemoryPermission access |||
        GetAlignmentOptionFromAlignment alignment) 0 size = none) :
    AllocateInternal k base ps addr PlacementMode.kAnywhere size alignment access =
      ExecResult.ret none
        [Event.vmoCreate size true, Event.replaceAsExecutable true,
         Event.map (GetProtectionFromMemoryPermission access |||
           GetAlignmentOptionFromAlignment alignment) 0 size none] := by
  unfold AllocateInternal
  simp [hvmo, hexec, halign, hfail0]

/-! The same evaluation lemmas for CreateAddressSpaceReservationInternal. -/

theorem createASRI_useHint_eq (k : Kernel) (base ps addr size alignment : Nat)
    (maxPermission : MemoryPermission)
    (halign : GetAlignmentOptionFromAlignment alignment ≠ 0)
    (hfail : k.allocResult
      ((ZX_VM_CAN_MAP_READ ||| ZX_VM_CAN_MAP_WRITE ||| ZX_VM_CAN_MAP_EXECUTE |||
        ZX_VM_CAN_MAP_SPECIFIC) ||| GetAlignmentOptionFromAlignment alignment ||| ZX_VM_SPECIFIC)
      (uintptrSub addr base) size = none) :
    CreateAddressSpaceReservationInternal k base ps addr PlacementMode.kUseHint
        size alignment maxPermission =
      ExecResult.ret
        (k.allocResult ((ZX_VM_CAN_MAP_READ ||| ZX_VM_CAN_MAP_WRITE |||
          ZX_VM_CAN_MAP_EXECUTE ||| ZX_VM_CAN_MAP_SPECIFIC) |||
          GetAlignmentOptionFromAlignment alignment) 0 size)
        [Event.vmarAllocate ((ZX_VM_CAN_MAP_READ ||| ZX_VM_CAN_MAP_WRITE |||
           ZX_VM_CAN_MAP_EXECUTE ||| ZX_VM_CAN_MAP_SPECIFIC) |||
           GetAlignmentOptionFromAlignment alignment ||| ZX_VM_SPECIFIC)
           (uintptrSub addr base) size none,
         Event.vmarAllocate ((ZX_VM_CAN_MAP_READ ||| ZX_VM_CAN_MAP_WRITE |||
           ZX_VM_CAN_MAP_EXECUTE ||| ZX_VM_CAN_MAP_SPECIFIC) |||
           GetAlignmentOptionFromAlignment alignment) 0 size
           (k.allocResult ((ZX_VM_CAN_MAP_READ ||| ZX_VM_CAN_MAP_WRITE |||
             ZX_VM_CAN_MAP_EXECUTE ||| ZX_VM_CAN_MAP_SPECIFIC) |||
             GetAlignmentOptionFromAlignment alignment) 0 size)] := by
  have hmask := lor_specific_land_mask _ (canMapAlign_lt alignment)
    (canMapAlign_testBit_four alignment)
  unfold CreateAddressSpaceReservationInternal
  simp [halign, hfail, hmask]

theorem createASRI_fixed_eq (k : Kernel) (base ps addr size alignment : Nat)
    (maxPermission : MemoryPermission)
    (halign : GetAlignmentOptionFromAlignment alignment ≠ 0)
    (hfail : k.allocResult
      ((ZX_VM_CAN_MAP_READ ||| ZX_VM_CAN_MAP_WRITE ||| ZX_VM_CAN_MAP_EXECUTE |||
        ZX_VM_CAN_MAP_SPECIFIC) ||| GetAlignmentOptionFromAlignment alignment ||| ZX_VM_SPECIFIC)
      (uintptrSub addr base) size = none) :
    CreateAddressSpaceReservationInternal k base ps addr PlacementMode.kFixed
        size alignment maxPermission =
      ExecResult.ret none
        [Event.vmarAllocate ((ZX_VM_CAN_MAP_READ ||| ZX_VM_CAN_MAP_WRITE |||
           ZX_VM_CAN_MAP_EXECUTE ||| ZX_VM_CAN_MAP_SPECIFIC) |||
           GetAlignmentOptionFromAlignment alignment ||| ZX_VM_SPECIFIC)
           (uintptrSub addr base) size none] := by
  unfold CreateAddressSpaceReservationInternal
  simp [halign, hfail]

theorem createASRI_anywhere_eq (k : Kernel) (base ps addr size alignment : Nat)
    (maxPermission : MemoryPermission)
    (halign : GetAlignmentOptionFromAlignment alignment ≠ 0)
    (hfail0 : k.allocResult
      ((ZX_VM_CAN_MAP_READ ||| ZX_VM_CAN_MAP_WRITE ||| ZX_VM_CAN_MAP_EXECUTE |||
        ZX_VM_CAN_MAP_SPECIFIC) ||| GetAlignmentOptionFromAlignment alignment) 0 size = none) :
    CreateAddressSpaceReservationInternal k base ps addr PlacementMode.kAnywhere
        size alignment maxPermission =
      ExecResult.ret none
        [Event.vmarAllocate ((ZX_VM_CAN_MAP_READ ||| ZX_VM_CAN_MAP_WRITE |||
           ZX_VM_CAN_MAP_EXECUTE ||| ZX_VM_CAN_MAP_SPECIFIC) |||
           GetAlignmentOptionFromAlignment alignment) 0 size none] := by
  unfold CreateAddressSpaceReservationInternal
  simp [halign, hfail0]

theorem testBit_or_right_true {a i : Nat} (h : Nat.testBit a i = true) (x : Nat) :
    Nat.testBit (x ||| a) i = true := by
  rw [Nat.testBit_or, h, Bool.or_true]

theorem canMapChain_or_testBits (x : Nat) :
    Nat.testBit ((ZX_VM_CAN_MAP_READ ||| ZX_VM_CAN_MAP_WRITE ||| ZX_VM_CAN_MAP_EXECUTE |||
      ZX_VM_CAN_MAP_SPECIFIC) ||| x) 6 = true ∧
    Nat.testBit ((ZX_VM_CAN_MAP_READ ||| ZX_VM_CAN_MAP_WRITE ||| ZX_VM_CAN_MAP_EXECUTE |||
      ZX_VM_CAN_MAP_SPECIFIC) ||| x) 7 = true ∧
    Nat.testBit ((ZX_VM_CAN_MAP_READ ||| ZX_VM_CAN_MAP_WRITE ||| ZX_VM_CAN_MAP_EXECUTE |||
      ZX_VM_CAN_MAP_SPECIFIC) ||| x) 8 = true ∧
    Nat.testBit ((ZX_VM_CAN_MAP_READ ||| ZX_VM_CAN_MAP_WRITE ||| ZX_VM_CAN_MAP_EXECUTE |||
      ZX_VM_CAN_MAP_SPECIFIC) ||| x) 9 = true :=
  ⟨testBit_or_left_true (by decide) x, testBit_or_left_true (by decide) x,
   testBit_or_left_true (by decide) x, testBit_or_left_true (by decide) x⟩

/-- C1: under every placement mode the Placement Engine issues the initial
request with size, alignment class and permission or creation bits in the
options and, for non-kAnywhere modes, the specific-offset bit; when the
first attempt fails it retries exactly once under kUseHint, with the
specific bit removed and all other parameters (options, size) preserved and
the retry outcome returned as the overall outcome, while under kFixed and
kAnywhere a single failing attempt fails the whole operation with no
further request — for committed allocation and reservation creation
alike. -/
theorem placement_engine_single_retry (k : Kernel) (base ps addr size alignment : Nat)
    (access maxPermission : MemoryPermission)
    (hvmo : k.vmoCreateOk size = true)
    (hexec : k.replaceAsExecutableOk = true)
    (halign : GetAlignmentOptionFromAlignment alignment ≠ 0)
    (hmapfail : k.mapResult
      (GetProtectionFromMemoryPermission access |||
        GetAlignmentOptionFromAlignment alignment ||| ZX_VM_SPECIFIC)
      (uintptrSub addr base) size = none)
    (hallocfail : k.allocResult
      ((ZX_VM_CAN_MAP_READ ||| ZX_VM_CAN_MAP_WRITE ||| ZX_VM_CAN_MAP_EXECUTE |||
        ZX_VM_CAN_MAP_SPECIFIC) ||| GetAlignmentOptionFromAlignment alignment |||
        ZX_VM_SPECIFIC) (uintptrSub addr base) size = none) :
    (AllocateInternal k base ps addr PlacementMode.kUseHint size alignment access =
      ExecResult.ret
        (k.mapResult (GetProtectionFromMemoryPermission access |||
          GetAlignmentOptionFromAlignment alignment) 0 size)
        [Event.vmoCreate size true, Event.replaceAsExecutable true,
         Event.map (GetProtectionFromMemoryPermission access |||
           GetAlignmentOptionFromAlignment alignment ||| ZX_VM_SPECIFIC)
           (uintptrSub addr base) size none,
         Event.map (GetProtectionFromMemoryPermission access |||
           GetAlignmentOptionFromAlignment alignment) 0 size
           (k.mapResult (GetProtectionFromMemoryPermission access |||
             GetAlignmentOptionFromAlignment alignment) 0 size)]) ∧
    (AllocateInternal k base ps addr PlacementMode.kFixed size alignment access =
      ExecResult.ret none
        [Event.vmoCreate size true, Event.replaceAsExecutable true,
         Event.map (GetProtectionFromMemoryPermission access |||
           GetAlignmentOptionFromAlignment alignment ||| ZX_VM_SPECIFIC)
           (uintptrSub addr base) size none]) ∧
    (k.mapResult (GetProtectionFromMemoryPermission access |||
        GetAlignmentOptionFromAlignment alignment) 0 size = none →
      AllocateInternal k base ps addr PlacementMode.kAnywhere size alignment access =
        ExecResult.ret none
          [Event.vmoCreate size true, Event.replaceAsExecutable true,
           Event.map (GetProtectionFromMemoryPermission access |||
             GetAlignmentOptionFromAlignment alignment) 0 size none]) ∧
    (CreateAddressSpaceReservationInternal k base ps addr PlacementMode.kUseHint
        size alignment maxPermission =
      ExecResult.ret
        (k.allocResult ((ZX_VM_CAN_MAP_READ ||| ZX_VM_CAN_MAP_WRITE |||
          ZX_VM_CAN_MAP_EXECUTE ||| ZX_VM_CAN_MAP_SPECIFIC) |||
          GetAlignmentOptionFromAlignment alignment) 0 size)
        [Event.vmarAllocate ((ZX_VM_CAN_MAP_READ ||| ZX_VM_CAN_MAP_WRITE |||
           ZX_VM_CAN_MAP_EXECUTE ||| ZX_VM_CAN_MAP_SPECIFIC) |||
           GetAlignmentOptionFromAlignment alignment ||| ZX_VM_SPECIFIC)
           (uintptrSub addr base) size none,
         Event.vmarAllocate ((ZX_VM_CAN_MAP_READ ||| ZX_VM_CAN_MAP_WRITE |||
           ZX_VM_CAN_MAP_EXECUTE ||| ZX_VM_CAN_MAP_SPECIFIC) |||
           GetAlignmentOptionFromAlignment alignment) 0 size
           (k.allocResult ((ZX_VM_CAN_MAP_READ ||| ZX_VM_CAN_MAP_WRITE |||
             ZX_VM_CAN_MAP_EXECUTE ||| ZX_VM_CAN_MAP_SPECIFIC) |||
             GetAlignmentOptionFromAlignment alignment) 0 size)]) ∧
    (CreateAddressSpaceReservationInternal k base ps addr PlacementMode.kFixed
        size alignment maxPermission =
      ExecResult.ret none
        [Event.vmarAllocate ((ZX_VM_CAN_MAP_READ ||| ZX_VM_CAN_MAP_WRITE |||
           ZX_VM_CAN_MAP_EXECUTE ||| ZX_VM_CAN_MAP_SPECIFIC) |||
           GetAlignmentOptionFromAlignment alignment ||| ZX_VM_SPECIFIC)
           (uintptrSub addr base) size none]) ∧
    (k.allocResult ((ZX_VM_CAN_MAP_READ ||| ZX_VM_CAN_MAP_WRITE |||
        ZX_VM_CAN_MAP_EXECUTE ||| ZX_VM_CAN_MAP_SPECIFIC) |||
        GetAlignmentOptionFromAlignment alignment) 0 size = none →
      CreateAddressSpaceReservationInternal k base ps addr PlacementMode.kAnywhere
          size alignment maxPermission =
        ExecResult.ret none
          [Event.vmarAllocate ((ZX_VM_CAN_MAP_READ ||| ZX_VM_CAN_MAP_WRITE |||
             ZX_VM_CAN_MAP_EXECUTE ||| ZX_VM_CAN_MAP_SPECIFIC) |||
             GetAlignmentOptionFromAlignment alignment) 0 size none]) :=
  ⟨allocateInternal_useHint_eq k base ps addr size alignment access hvmo hexec halign hmapfail,
   allocateInternal_fixed_eq k base ps addr size alignment access hvmo hexec halign hmapfail,
   fun h0 => allocateInternal_anywhere_eq k base ps addr size alignment access hvmo hexec halign h0,
   createASRI_useHint_eq k base ps addr size alignment maxPermission halign hallocfail,
   createASRI_fixed_eq k base ps addr size alignment maxPermission halign hallocfail,
   fun h0 => createASRI_anywhere_eq k base ps addr size alignment maxPermission halign h0⟩

/-- Witness for C1: a concrete kernel refusing every specific-offset map and
granting the relocated retry at 65536. -/
theorem placement_engine_single_retry_witness :
    AllocateInternal kernelHintFallback 4096 4096 8192 PlacementMode.kUseHint 4096 4096
        MemoryPermission.kRead =
      ExecResult.ret (some 65536)
        [Event.vmoCreate 4096 true, Event.replaceAsExecutable true,
         Event.map 201326609 4096 4096 none,
         Event.map 201326593 0 4096 (some 65536)] := by
  have h := placement_engine_single_retry kernelHintFallback 4096 4096 8192 4096 4096
    MemoryPermission.kRead MemoryPermission.kReadWrite rfl rfl (by decide) (by decide) rfl
  exact h.1.trans (by decide)

/-- C2: whenever the memory object was created, the executable upgrade is
attempted regardless of the requested access level and of the placement
mode; and when the upgrade call fails the allocation returns the absent
result, with no further kernel request. -/
theorem allocation_requires_executable_upgrade (k : Kernel)
    (base ps addr size alignment : Nat) (placement : PlacementMode)
    (access : MemoryPermission)
    (hvmo : k.vmoCreateOk size = true) :
    Event.replaceAsExecutable k.replaceAsExecutableOk ∈
      (AllocateInternal k base ps addr placement size alignment access).trace ∧
    (k.replaceAsExecutableOk = false →
      AllocateInternal k base ps addr placement size alignment access =
        ExecResult.ret none
          [Event.vmoCreate size true, Event.replaceAsExecutable false]) := by
  constructor
  · cases hex : k.replaceAsExecutableOk
    · unfold AllocateInternal
      simp [hvmo, hex, ExecResult.trace]
    · by_cases hal : GetAlignmentOptionFromAlignment alignment = 0
      · unfold AllocateInternal
        simp [hvmo, hex, hal, ExecResult.trace]
      · cases placement with
        | kUseHint =>
          cases hst : k.mapResult (GetProtectionFromMemoryPermission access |||
              GetAlignmentOptionFromAlignment alignment ||| ZX_VM_SPECIFIC)
              (uintptrSub addr base) size with
          | none =>
            rw [allocateInternal_useHint_eq k base ps addr size alignment access hvmo hex hal hst]
            simp [ExecResult.trace]
          | some res =>
            unfold AllocateInternal
            simp [hvmo, hex, hal, hst, ExecResult.trace]
        | kAnywhere =>
          cases hst : k.mapResult (GetProtectionFromMemoryPermission access |||
              GetAlignmentOptionFromAlignment alignment) 0 size with
          | none =>
            rw [allocateInternal_anywhere_eq k base ps addr size alignment access hvmo hex hal hst]
            simp [ExecResult.trace]
          | some res =>
            unfold AllocateInternal
            simp [hvmo, hex, hal, hst, ExecResult.trace]
        | kFixed =>
          cases hst : k.mapResult (GetProtectionFromMemoryPermission access |||
              GetAlignmentOptionFromAlignment alignment ||| ZX_VM_SPECIFIC)
              (uintptrSub addr base) size with
          | none =>
            rw [allocateInternal_fixed_eq k base ps addr size alignment access hvmo hex hal hst]
            simp [ExecResult.trace]
          | some res =>
            unfold AllocateInternal
            simp [hvmo, hex, hal, hst, ExecResult.trace]
  · intro hex
    unfold AllocateInternal
    simp [hvmo, hex]

/-- Witness for C2: with a failing executable upgrade, a non-executable
read-only allocation fails outright. -/
theorem allocation_requires_executable_upgrade_witness :
    AllocateInternal kernelNoVmex 4096 4096 8192 PlacementMode.kUseHint 4096 4096
        MemoryPermission.kRead =
      ExecResult.ret none
        [Event.vmoCreate 4096 true, Event.replaceAsExecutable false] :=
  (allocation_requires_executable_upgrade kernelNoVmex 4096 4096 8192 4096 4096
    PlacementMode.kUseHint MemoryPermission.kRead rfl).2 rfl

/-- C3: DecommitPages, on the root facade and on a reservation alike, is the
sequential composition of a no-access permission change followed by a
discard of the system pages; it reports success exactly when both sub-steps
succeed, and when the discard step fails after a successful permission
change the call reports failure while the range is left at the no-access
protection word, with no rollback. -/
theorem decommit_two_phase (kO kR : Kernel) (sO sR : Perms)
    (psO psR addrO sizeO addrR sizeR : Nat) :
    (OS.DecommitPages kO sO psO addrO sizeO =
      (let p := OS.SetPermissions kO sO psO addrO sizeO MemoryPermission.kNoAccess
       if p.1 then OS.DiscardSystemPages kO p.2 psO addrO sizeO else (false, p.2))) ∧
    ((OS.DecommitPages kO sO psO addrO sizeO).1 = true ↔
      (kO.protectOk 0 addrO sizeO = true ∧ kO.decommitOk addrO sizeO = true)) ∧
    ((AddressSpaceReservation.DecommitPages kR sR psR addrR sizeR).1 = true ↔
      (kR.protectOk 0 addrR sizeR = true ∧ kR.decommitOk addrR sizeR = true)) ∧
    (kO.protectOk 0 addrO sizeO = true → kO.decommitOk addrO sizeO = false →
      (OS.DecommitPages kO sO psO addrO sizeO).1 = false ∧
      ∀ a, addrO ≤ a → a < addrO + sizeO →
        (OS.DecommitPages kO sO psO addrO sizeO).2 a = 0) ∧
    (kR.protectOk 0 addrR sizeR = true → kR.decommitOk addrR sizeR = false →
      (AddressSpaceReservation.DecommitPages kR sR psR addrR sizeR).1 = false ∧
      ∀ a, addrR ≤ a → a < addrR + sizeR →
        (AddressSpaceReservation.DecommitPages kR sR psR addrR sizeR).2 a = 0) := by
  refine ⟨rfl, ?_, ?_, ?_, ?_⟩
  · unfold OS.DecommitPages OS.SetPermissions OS.DiscardSystemPages
      SetPermissionsInternal DiscardSystemPagesInternal
    cases hp : kO.protectOk 0 addrO sizeO <;>
      simp [GetProtectionFromMemoryPermission, hp]
  · unfold AddressSpaceReservation.DecommitPages AddressSpaceReservation.SetPermissions
      AddressSpaceReservation.DiscardSystemPages SetPermissionsInternal
      DiscardSystemPagesInternal
    cases hp : kR.protectOk 0 addrR sizeR <;>
      simp [GetProtectionFromMemoryPermission, hp]
  · intro hp hd
    unfold OS.DecommitPages OS.SetPermissions OS.DiscardSystemPages
      SetPermissionsInternal DiscardSystemPagesInternal
    refine ⟨by simp [GetProtectionFromMemoryPermission, hp, hd], fun a ha1 ha2 => ?_⟩
    simp [GetProtectionFromMemoryPermission, hp, hd, setRange, ha1, ha2]
  · intro hp hd
    unfold AddressSpaceReservation.DecommitPages AddressSpaceReservation.SetPermissions
      AddressSpaceReservation.DiscardSystemPages SetPermissionsInternal
      DiscardSystemPagesInternal
    refine ⟨by simp [GetProtectionFromMemoryPermission, hp, hd], fun a ha1 ha2 => ?_⟩
    simp [GetProtectionFromMemoryPermission, hp, hd, setRange, ha1, ha2]

/-- Witness for C3: protect granted, decommit refused, on a concrete page. -/
theorem decommit_two_phase_witness :
    (OS.DecommitPages kernelDecommitRefused permsAllRwx 4096 4096 4096).1 = false ∧
    (OS.DecommitPages kernelDecommitRefused permsAllRwx 4096 4096 4096).2 5000 = 0 := by
  have h := (decommit_two_phase kernelDecommitRefused kernelDecommitRefused
    permsAllRwx permsAllRwx 4096 4096 4096 4096 4096 4096).2.2.2.1 rfl rfl
  exact ⟨h.1, h.2 5000 (by omega) (by omega)⟩

/-- C4: AddressSpaceReservation::Allocate delegates to the allocation
primitive with kFixed placement; under the kernel contract that a
specific-offset map succeeds only at base plus offset, a successful fixed
allocation inside the reservation is always at exactly the requested
address, never at a different one. -/
theorem reservation_allocate_fixed_exact (k : Kernel) (r : AddressSpaceReservation)
    (ps addr size : Nat) (access : MemoryPermission)
    (hcontract : ∀ o off sz a, Nat.testBit o 4 = true → k.mapResult o off sz = some a →
      a = r.base + off)
    (hbase : r.base ≤ addr) (haddr : addr < 2 ^ 64) :
    (∀ a t, AllocateInternal k r.base ps addr PlacementMode.kFixed size ps access =
        ExecResult.ret (some a) t → a = addr) ∧
    (∀ t, AddressSpaceReservation.Allocate k r ps addr size access =
        ExecResult.ret true t →
      AllocateInternal k r.base ps addr PlacementMode.kFixed size ps access =
        ExecResult.ret (some addr) t) := by
  have hmain : ∀ a t, AllocateInternal k r.base ps addr PlacementMode.kFixed size ps access =
      ExecResult.ret (some a) t → a = addr := by
    intro a t h
    unfold AllocateInternal at h
    by_cases hv : k.vmoCreateOk size = false
    · simp [hv] at h
    · by_cases hex : k.replaceAsExecutableOk = false
      · simp [hv, hex] at h
      · by_cases hal : GetAlignmentOptionFromAlignment ps = 0
        · simp [hv, hex, hal] at h
        · cases hst : k.mapResult (GetProtectionFromMemoryPermission access |||
              GetAlignmentOptionFromAlignment ps ||| ZX_VM_SPECIFIC)
              (uintptrSub addr r.base) size with
          | none => simp [hv, hex, hal, hst] at h
          | some res =>
            simp [hv, hex, hal, hst] at h
            have hbit : Nat.testBit (GetProtectionFromMemoryPermission access |||
                GetAlignmentOptionFromAlignment ps ||| ZX_VM_SPECIFIC) 4 = true :=
              testBit_or_right_true (by decide) _
            have hres := hcontract _ _ _ res hbit hst
            rw [uintptrSub_eq addr r.base hbase haddr] at hres
            omega
  refine ⟨hmain, fun t h => ?_⟩
  unfold AddressSpaceReservation.Allocate at h
  cases hA : AllocateInternal k r.base ps addr PlacementMode.kFixed size ps access with
  | abort t' =>
    rw [hA] at h
    exact absurd h (by simp)
  | ret allocation t' =>
    rw [hA] at h
    simp only [ExecResult.ret.injEq] at h
    obtain ⟨h1, h2⟩ := h
    cases allocation with
    | none => simp at h1
    | some a =>
      have ha := hmain a t' hA
      subst ha
      subst h2
      rfl

/-- Witness for C4: a kernel honouring specific maps at base 4096, a fixed
allocation at 8192 lands exactly at 8192. -/
theorem reservation_allocate_fixed_exact_witness :
    AllocateInternal kernelSpecificAt4096 4096 4096 8192 PlacementMode.kFixed 4096 4096
        MemoryPermission.kRead =
      ExecResult.ret (some 8192)
        [Event.vmoCreate 4096 true, Event.replaceAsExecutable true,
         Event.map 201326609 4096 4096 (some 8192)] := by
  have h := reservation_allocate_fixed_exact kernelSpecificAt4096
    { base := 4096, size := 65536 } 4096 8192 4096 MemoryPermission.kRead
    (fun o off sz a _ hm => (Option.some.inj hm).symm) (by decide) (by norm_num)
  exact h.2 [Event.vmoCreate 4096 true, Event.replaceAsExecutable true,
    Event.map 201326609 4096 4096 (some 8192)] (by decide)

theorem createASRI_abort_eq (k : Kernel) (base ps addr size alignment : Nat)
    (maxPermission : MemoryPermission) (placement : PlacementMode)
    (hal : GetAlignmentOptionFromAlignment alignment = 0) :
    CreateAddressSpaceReservationInternal k base ps addr placement size alignment
      maxPermission = ExecResult.abort [] := by
  unfold CreateAddressSpaceReservationInternal
  simp [hal]

theorem createASRI_first_success_eq (k : Kernel) (base ps addr size alignment : Nat)
    (maxPermission : MemoryPermission) (placement : PlacementMode) (c : Nat)
    (hne : placement ≠ PlacementMode.kAnywhere)
    (halign : GetAlignmentOptionFromAlignment alignment ≠ 0)
    (hsome : k.allocResult ((ZX_VM_CAN_MAP_READ ||| ZX_VM_CAN_MAP_WRITE |||
      ZX_VM_CAN_MAP_EXECUTE ||| ZX_VM_CAN_MAP_SPECIFIC) |||
      GetAlignmentOptionFromAlignment alignment ||| ZX_VM_SPECIFIC)
      (uintptrSub addr base) size = some c) :
    CreateAddressSpaceReservationInternal k base ps addr placement size alignment
        maxPermission =
      ExecResult.ret (some c)
        [Event.vmarAllocate ((ZX_VM_CAN_MAP_READ ||| ZX_VM_CAN_MAP_WRITE |||
           ZX_VM_CAN_MAP_EXECUTE ||| ZX_VM_CAN_MAP_SPECIFIC) |||
           GetAlignmentOptionFromAlignment alignment ||| ZX_VM_SPECIFIC)
           (uintptrSub addr base) size (some c)] := by
  unfold CreateAddressSpaceReservationInternal
  simp [halign, hne, hsome]

theorem createASRI_anywhere_success_eq (k : Kernel) (base ps addr size alignment : Nat)
    (maxPermission : MemoryPermission) (c : Nat)
    (halign : GetAlignmentOptionFromAlignment alignment ≠ 0)
    (hsome : k.allocResult ((ZX_VM_CAN_MAP_READ ||| ZX_VM_CAN_MAP_WRITE |||
      ZX_VM_CAN_MAP_EXECUTE ||| ZX_VM_CAN_MAP_SPECIFIC) |||
      GetAlignmentOptionFromAlignment alignment) 0 size = some c) :
    CreateAddressSpaceReservationInternal k base ps addr PlacementMode.kAnywhere
        size alignment maxPermission =
      ExecResult.ret (some c)
        [Event.vmarAllocate ((ZX_VM_CAN_MAP_READ ||| ZX_VM_CAN_MAP_WRITE |||
           ZX_VM_CAN_MAP_EXECUTE ||| ZX_VM_CAN_MAP_SPECIFIC) |||
           GetAlignmentOptionFromAlignment alignment) 0 size (some c)] := by
  unfold CreateAddressSpaceReservationInternal
  simp [halign, hsome]


/-- C5: the Reservation Primitive ignores its maximum-permission argument:
any two values produce the same child-creation requests and the same result,
and every issued child-creation request carries all four of the
CAN_MAP_SPECIFIC, CAN_MAP_READ, CAN_MAP_WRITE and CAN_MAP_EXECUTE bits. -/
theorem reservation_ignores_max_permission (k : Kernel) (base ps addr size alignment : Nat)
    (placement : PlacementMode) (p1 p2 : MemoryPermission) :
    CreateAddressSpaceReservationInternal k base ps addr placement size alignment p1 =
      CreateAddressSpaceReservationInternal k base ps addr placement size alignment p2 ∧
    (∀ o off sz res, Event.vmarAllocate o off sz res ∈
        (CreateAddressSpaceReservationInternal k base ps addr placement size
          alignment p1).trace →
      Nat.testBit o 6 = true ∧ Nat.testBit o 7 = true ∧
      Nat.testBit o 8 = true ∧ Nat.testBit o 9 = true) := by
  refine ⟨rfl, fun o off sz res hmem => ?_⟩
  have hplain := canMapChain_or_testBits (GetAlignmentOptionFromAlignment alignment)
  have hspec : Nat.testBit ((ZX_VM_CAN_MAP_READ ||| ZX_VM_CAN_MAP_WRITE |||
        ZX_VM_CAN_MAP_EXECUTE ||| ZX_VM_CAN_MAP_SPECIFIC) |||
        GetAlignmentOptionFromAlignment alignment ||| ZX_VM_SPECIFIC) 6 = true ∧
      Nat.testBit ((ZX_VM_CAN_MAP_READ ||| ZX_VM_CAN_MAP_WRITE |||
        ZX_VM_CAN_MAP_EXECUTE ||| ZX_VM_CAN_MAP_SPECIFIC) |||
        GetAlignmentOptionFromAlignment alignment ||| ZX_VM_SPECIFIC) 7 = true ∧
      Nat.testBit ((ZX_VM_CAN_MAP_READ ||| ZX_VM_CAN_MAP_WRITE |||
        ZX_VM_CAN_MAP_EXECUTE ||| ZX_VM_CAN_MAP_SPECIFIC) |||
        GetAlignmentOptionFromAlignment alignment ||| ZX_VM_SPECIFIC) 8 = true ∧
      Nat.testBit ((ZX_VM_CAN_MAP_READ ||| ZX_VM_CAN_MAP_WRITE |||
        ZX_VM_CAN_MAP_EXECUTE ||| ZX_VM_CAN_MAP_SPECIFIC) |||
        GetAlignmentOptionFromAlignment alignment ||| ZX_VM_SPECIFIC) 9 = true :=
    ⟨testBit_or_left_true hplain.1 _, testBit_or_left_true hplain.2.1 _,
     testBit_or_left_true hplain.2.2.1 _, testBit_or_left_true hplain.2.2.2 _⟩
  by_cases hal : GetAlignmentOptionFromAlignment alignment = 0
  · rw [createASRI_abort_eq k base ps addr size alignment p1 placement hal] at hmem
    simp [ExecResult.trace] at hmem
  · cases placement with
    | kUseHint =>
      cases hst : k.allocResult ((ZX_VM_CAN_MAP_READ ||| ZX_VM_CAN_MAP_WRITE |||
          ZX_VM_CAN_MAP_EXECUTE ||| ZX_VM_CAN_MAP_SPECIFIC) |||
          GetAlignmentOptionFromAlignment alignment ||| ZX_VM_SPECIFIC)
          (uintptrSub addr base) size with
      | none =>
        rw [createASRI_useHint_eq k base ps addr size alignment p1 hal hst] at hmem
        simp [ExecResult.trace] at hmem
        rcases hmem with ⟨ho, _⟩ | ⟨ho, _⟩
        · subst ho; exact hspec
        · subst ho; exact hplain
      | some c =>
        rw [createASRI_first_success_eq k base ps addr size alignment p1
          PlacementMode.kUseHint c (by decide) hal hst] at hmem
        simp [ExecResult.trace] at hmem
        obtain ⟨ho, _⟩ := hmem
        subst ho; exact hspec
    | kAnywhere =>
      cases hst : k.allocResult ((ZX_VM_CAN_MAP_READ ||| ZX_VM_CAN_MAP_WRITE |||
          ZX_VM_CAN_MAP_EXECUTE ||| ZX_VM_CAN_MAP_SPECIFIC) |||
          GetAlignmentOptionFromAlignment alignment) 0 size with
      | none =>
        rw [createASRI_anywhere_eq k base ps addr size alignment p1 hal hst] at hmem
        simp [ExecResult.trace] at hmem
        obtain ⟨ho, _⟩ := hmem
        subst ho; exact hplain
      | some c =>
        rw [createASRI_anywhere_success_eq k base ps addr size alignment p1 c hal hst] at hmem
        simp [ExecResult.trace] at hmem
        obtain ⟨ho, _⟩ := hmem
        subst ho; exact hplain
    | kFixed =>
      cases hst : k.allocResult ((ZX_VM_CAN_MAP_READ ||| ZX_VM_CAN_MAP_WRITE |||
          ZX_VM_CAN_MAP_EXECUTE ||| ZX_VM_CAN_MAP_SPECIFIC) |||
          GetAlignmentOptionFromAlignment alignment ||| ZX_VM_SPECIFIC)
          (uintptrSub addr base) size with
      | none =>
        rw [createASRI_fixed_eq k base ps addr size alignment p1 hal hst] at hmem
        simp [ExecResult.trace] at hmem
        obtain ⟨ho, _⟩ := hmem
        subst ho; exact hspec
      | some c =>
        rw [createASRI_first_success_eq k base ps addr size alignment p1
          PlacementMode.kFixed c (by decide) hal hst] at hmem
        simp [ExecResult.trace] at hmem
        obtain ⟨ho, _⟩ := hmem
        subst ho; exact hspec

/-- Witness for C5: two different maximum permissions at kAnywhere yield the
same reservation request and result, and the issued options word 201327552
carries the four CAN_MAP bits. -/
theorem reservation_ignores_max_permission_witness :
    CreateAddressSpaceReservationInternal kernelReserveAt65536 4096 4096 0
        PlacementMode.kAnywhere 4096 4096 MemoryPermission.kRead =
      CreateAddressSpaceReservationInternal kernelReserveAt65536 4096 4096 0
        PlacementMode.kAnywhere 4096 4096 MemoryPermission.kReadWriteExecute ∧
    (Nat.testBit 201327552 6 = true ∧ Nat.testBit 201327552 7 = true ∧
     Nat.testBit 201327552 8 = true ∧ Nat.testBit 201327552 9 = true) := by
  have h := reservation_ignores_max_permission kernelReserveAt65536 4096 4096 0 4096 4096
    PlacementMode.kAnywhere MemoryPermission.kRead MemoryPermission.kReadWriteExecute
  exact ⟨h.1, h.2 201327552 0 4096 (some 65536) (by decide)⟩

/-- C9: the Root Facade never selects kFixed placement: a null address or
hint selects kAnywhere and a non null one selects kUseHint, for both the
root-level Allocate and the root-level CreateAddressSpaceReservation; in
consequence a hinted root-level request whose hinted placement is refused
falls back to a kernel-chosen address instead of failing. -/
theorem root_facade_never_fixed (k : Kernel) (base ps hint size alignment : Nat)
    (access maxPermission : MemoryPermission) :
    OS.allocatePlacement hint ≠ PlacementMode.kFixed ∧
    OS.reservationHintPlacement hint ≠ PlacementMode.kFixed ∧
    (hint = 0 → OS.allocatePlacement hint = PlacementMode.kAnywhere ∧
      OS.reservationHintPlacement hint = PlacementMode.kAnywhere) ∧
    (hint ≠ 0 → OS.allocatePlacement hint = PlacementMode.kUseHint ∧
      OS.reservationHintPlacement hint = PlacementMode.kUseHint) ∧
    (OS.Allocate k base ps hint size alignment access =
      AllocateInternal k base ps hint (OS.allocatePlacement hint) size alignment access) ∧
    (hint ≠ 0 → k.vmoCreateOk size = true → k.replaceAsExecutableOk = true →
      GetAlignmentOptionFromAlignment alignment ≠ 0 →
      k.mapResult (GetProtectionFromMemoryPermission access |||
        GetAlignmentOptionFromAlignment alignment ||| ZX_VM_SPECIFIC)
        (uintptrSub hint base) size = none →
      OS.Allocate k base ps hint size alignment access =
        ExecResult.ret
          (k.mapResult (GetProtectionFromMemoryPermission access |||
            GetAlignmentOptionFromAlignment alignment) 0 size)
          [Event.vmoCreate size true, Event.replaceAsExecutable true,
           Event.map (GetProtectionFromMemoryPermission access |||
             GetAlignmentOptionFromAlignment alignment ||| ZX_VM_SPECIFIC)
             (uintptrSub hint base) size none,
           Event.map (GetProtectionFromMemoryPermission access |||
             GetAlignmentOptionFromAlignment alignment) 0 size
             (k.mapResult (GetProtectionFromMemoryPermission access |||
               GetAlignmentOptionFromAlignment alignment) 0 size)]) ∧
    (hint ≠ 0 → GetAlignmentOptionFromAlignment alignment ≠ 0 →
      k.allocResult ((ZX_VM_CAN_MAP_READ ||| ZX_VM_CAN_MAP_WRITE |||
        ZX_VM_CAN_MAP_EXECUTE ||| ZX_VM_CAN_MAP_SPECIFIC) |||
        GetAlignmentOptionFromAlignment alignment ||| ZX_VM_SPECIFIC)
        (uintptrSub hint base) size = none →
      ∀ c, k.allocResult ((ZX_VM_CAN_MAP_READ ||| ZX_VM_CAN_MAP_WRITE |||
        ZX_VM_CAN_MAP_EXECUTE ||| ZX_VM_CAN_MAP_SPECIFIC) |||
        GetAlignmentOptionFromAlignment alignment) 0 size = some c →
      OS.CreateAddressSpaceReservation k base ps hint size alignment maxPermission =
        ExecResult.ret (some { base := c, size := size })
          [Event.vmarAllocate ((ZX_VM_CAN_MAP_READ ||| ZX_VM_CAN_MAP_WRITE |||
             ZX_VM_CAN_MAP_EXECUTE ||| ZX_VM_CAN_MAP_SPECIFIC) |||
             GetAlignmentOptionFromAlignment alignment ||| ZX_VM_SPECIFIC)
             (uintptrSub hint base) size none,
           Event.vmarAllocate ((ZX_VM_CAN_MAP_READ ||| ZX_VM_CAN_MAP_WRITE |||
             ZX_VM_CAN_MAP_EXECUTE ||| ZX_VM_CAN_MAP_SPECIFIC) |||
             GetAlignmentOptionFromAlignment alignment) 0 size (some c)]) := by
  refine ⟨?_, ?_, ?_, ?_, rfl, ?_, ?_⟩
  · unfold OS.allocatePlacement
    by_cases h0 : hint = 0 <;> simp [h0]
  · unfold OS.reservationHintPlacement
    by_cases h0 : hint = 0 <;> simp [h0]
  · intro h0
    unfold OS.allocatePlacement OS.reservationHintPlacement
    simp [h0]
  · intro h0
    unfold OS.allocatePlacement OS.reservationHintPlacement
    simp [h0]
  · intro h0 hvmo hexec halign hmapfail
    unfold OS.Allocate
    have hp : OS.allocatePlacement hint = PlacementMode.kUseHint := by
      unfold OS.allocatePlacement
      simp [h0]
    rw [hp]
    exact allocateInternal_useHint_eq k base ps hint size alignment access hvmo hexec
      halign hmapfail
  · intro h0 halign hspecfail c hsome
    unfold OS.CreateAddressSpaceReservation
    have hp : OS.reservationHintPlacement hint = PlacementMode.kUseHint := by
      unfold OS.reservationHintPlacement
      simp [h0]
    rw [hp, createASRI_useHint_eq k base ps hint size alignment maxPermission halign
      hspecfail, hsome]

/-- Witness for C9: a non null hint whose specific reservation request is
refused still yields a reservation, at the kernel-chosen address 65536. -/
theorem root_facade_never_fixed_witness :
    OS.CreateAddressSpaceReservation kernelReserveFallback 4096 4096 8192 4096 4096
        MemoryPermission.kReadWrite =
      ExecResult.ret (some { base := 65536, size := 4096 })
        [Event.vmarAllocate 201327568 4096 4096 none,
         Event.vmarAllocate 201327552 0 4096 (some 65536)] := by
  have h := (root_facade_never_fixed kernelReserveFallback 4096 4096 8192 4096 4096
    MemoryPermission.kRead MemoryPermission.kReadWrite).2.2.2.2.2.2
    (by decide) (by decide) (by decide) 65536 (by decide)
  exact h.trans (by decide)
